import Mathlib

/-!
Shallow embedding of the query-classification and multi-service dispatch
orchestrator of the OSINT aggregation tool (`comprehensive_osint_api.py`),
together with proofs about the claims of its specification.

Python dynamic values are modelled as follows: strings are `String`, machine
floats used as elapsed seconds are `Rat` (only summation and defaulting occur,
no float-specific behaviour), `None`-able fields are `Option`, Python dicts
used as ordered key/value records are association lists, and a raised
exception is the `Except.error` branch of `Except String α`.
-/

/-- `OSINTResult` dataclass (source lines 34-48): one record per
(service, query, query-type) attempt.  The `timestamp` field is set at
construction from the wall clock; constructors below take it as an
explicit argument since the clock is outside the embedding. -/
structure OSINTResult where
  service : String
  query : String
  query_type : String
  success : Bool
  data : List (String × String)
  error : Option String
  timestamp : String
  response_time : Rat
  status_code : Option Nat
deriving DecidableEq, Repr

/-! ### String primitives

Python's `in`, `startswith`, `endswith`, `lower` and the two anchored
regular expressions are modelled directly on the character list of the
string, so that every predicate is executable and kernel-reducible. -/

/-- `listStarts pat l` : `pat` is a leading segment of `l`. -/
def listStarts : List Char → List Char → Bool
  | [], _ => true
  | _ :: _, [] => false
  | p :: ps, c :: cs => p == c && listStarts ps cs

/-- `listHasSegment pat l` : `pat` occurs contiguously somewhere in `l`
(Python's `pat in s` on strings). -/
def listHasSegment (pat : List Char) : List Char → Bool
  | [] => listStarts pat []
  | c :: cs => listStarts pat (c :: cs) || listHasSegment pat cs

/-- Python `pat in s`. -/
def strHasSegment (s pat : String) : Bool :=
  listHasSegment pat.data s.data

/-- Python `s.startswith(pat)`. -/
def strStarts (s pat : String) : Bool :=
  listStarts pat.data s.data

/-- Python `s.endswith(pat)`. -/
def strEnds (s pat : String) : Bool :=
  listStarts pat.data.reverse s.data.reverse

/-- Python `s.lower()` restricted to ASCII case mapping; the only uses are
suffix checks against ASCII file extensions, where the mappings agree. -/
def strLower (s : String) : String :=
  ⟨s.data.map Char.toLower⟩

/-- Last element is a newline character. -/
def endsNewline (l : List Char) : Bool :=
  match l.getLast? with
  | some c => c == '\n'
  | none => false

/-- Python `re.match` with a pattern anchored as `^...$`: the `$` anchor also
matches just before a single final newline, so `core` is tested on the whole
character list and, when the list ends in `'\n'`, on the list without it. -/
def pyAnchoredMatch (core : List Char → Bool) (s : String) : Bool :=
  core s.data || (endsNewline s.data && core s.data.dropLast)

/-- One character of the class `[a-zA-Z0-9_.-]`. -/
def usernameChar (c : Char) : Bool :=
  c.isAlphanum || c == '_' || c == '.' || c == '-'

/-- Body of the username regex `[a-zA-Z0-9_.-]+`. -/
def usernameCore (l : List Char) : Bool :=
  !l.isEmpty && l.all usernameChar

/-- Body of the trainer-code regex `\d{12}`; `\d` is modelled as the ASCII
digits (Python also accepts other Unicode decimal digits, which no claim
exercises). -/
def trainerCodeCore (l : List Char) : Bool :=
  l.length == 12 && l.all Char.isDigit

/-! ### Query classifier (`ComprehensiveOSINTEngine`, source lines 1007-1060) -/

/-- `_is_url` (lines 1039-1041): starts with a scheme, or contains one of the
top-level-domain substrings. -/
def is_url (q : String) : Bool :=
  strStarts q "http://" || strStarts q "https://" ||
    strHasSegment q ".com" || strHasSegment q ".org" || strHasSegment q ".net"

/-- `_is_shortened_url` (lines 1043-1046): contains a known short-link host. -/
def is_shortened_url (q : String) : Bool :=
  strHasSegment q "bit.ly" || strHasSegment q "tinyurl.com" ||
    strHasSegment q "t.co" || strHasSegment q "goo.gl" || strHasSegment q "ow.ly"

/-- `_is_image_url` (lines 1048-1051): lower-cased query ends in a recognized
image extension. -/
def is_image_url (q : String) : Bool :=
  strEnds (strLower q) ".jpg" || strEnds (strLower q) ".jpeg" ||
    strEnds (strLower q) ".png" || strEnds (strLower q) ".gif" ||
    strEnds (strLower q) ".webp" || strEnds (strLower q) ".bmp"

/-- `_looks_like_username` (lines 1053-1060): length 2-30, matches
`^[a-zA-Z0-9_.-]+$`, and is not a URL. -/
def looks_like_username (q : String) : Bool :=
  decide (2 ≤ q.data.length) && decide (q.data.length ≤ 30) &&
    pyAnchoredMatch usernameCore q && !is_url q

/-- Body of `_determine_search_types` (lines 1007-1031) before the final
default: the chain of `if`/`elif` branches, the URL branch appending
independently for the shortened-URL and image-URL checks. -/
def determine_core (q : String) : List String :=
  if is_url q then
    (if is_shortened_url q then ["utility_url_expansion"] else []) ++
      (if is_image_url q then ["image_analysis"] else [])
  else if looks_like_username q then ["social_username", "bulk_username"]
  else if strHasSegment q "@" && strHasSegment q "." then
    ["social_linkedin_email_lookup"]
  else if pyAnchoredMatch trainerCodeCore q then
    ["utility_pokemon_go_trainer_code"]
  else []

/-- `_determine_search_types` (lines 1007-1037): classifier with the final
`if not search_types` fallback to the comprehensive default. -/
def determine_search_types (q : String) : List String :=
  let search_types := determine_core q
  if search_types.isEmpty then ["social_username", "bulk_username"]
  else search_types

/-! ### Rate-limited fetcher (`EnhancedSession.make_request`, source lines 72-88)

The network is a parameter `att : Nat → Except String α` giving the outcome of
the `attempt`-th call of `self.session.request` (an `Except.error` is a raised
exception).  The Python loop is `for attempt in range(3)`, returning the first
response, re-raising on the last attempt, and sleeping between attempts; the
`raise Exception("Max retries exceeded")` after the loop is unreachable. -/

/-- Loop body of `make_request` over the remaining attempt indices. -/
def make_requestLoop (att : Nat → Except String α) : List Nat → Except String α
  | [] => .error "Max retries exceeded"
  | [i] => att i
  | i :: rest =>
    match att i with
    | .ok r => .ok r
    | .error _ => make_requestLoop att rest

/-- `EnhancedSession.make_request` with `max_retries = 3`. -/
def make_request (att : Nat → Except String α) : Except String α :=
  make_requestLoop att (List.range 3)

/-- Number of calls of `self.session.request` that `make_request` performs. -/
def attemptsMadeLoop (att : Nat → Except String α) : List Nat → Nat
  | [] => 0
  | [_] => 1
  | i :: rest =>
    match att i with
    | .ok _ => 1
    | .error _ => 1 + attemptsMadeLoop att rest

/-- Attempts performed by `make_request`. -/
def attemptsMade (att : Nat → Except String α) : Nat :=
  attemptsMadeLoop att (List.range 3)

/-! ### Dispatch orchestrator (`ComprehensiveOSINTEngine.search_comprehensive`,
source lines 976-1005)

The four services the engine holds are collaborators making network calls, so
they enter the embedding as the fields of `ServiceSuite`: each field is the
behaviour of that service's `search` entry point, an `Except.error` being a
raised exception.  `SocialMediaOSINT.search` returns a list of results (one
per platform), the other three return a single result. -/

structure ServiceSuite where
  social_media : String → String → Except String (List OSINTResult)
  image_analysis : String → Except String OSINTResult
  utilities : String → String → Except String OSINTResult
  sultan : String → Except String OSINTResult

/-- One iteration of the dispatch loop: which service call the tag
`search_type` triggers, and the results it contributes (as a list, since the
`social_` branch extends while the others append). -/
def dispatch_search_type (svc : ServiceSuite) (query search_type : String) :
    Except String (List OSINTResult) :=
  if strStarts search_type "social_" then
    svc.social_media query search_type
  else if search_type == "image_analysis" then
    (svc.image_analysis query).map (fun r => [r])
  else if strStarts search_type "utility_" then
    (svc.utilities query (String.replace search_type "utility_" "")).map (fun r => [r])
  else if search_type == "bulk_username" then
    (svc.sultan query).map (fun r => [r])
  else
    .ok []

/-- `search_comprehensive` with an explicit (non-`None`) tag list: each tag's
dispatch runs inside `try`/`except`; a raised exception is logged and the loop
continues with the results collected so far. -/
def search_comprehensive (svc : ServiceSuite) (query : String)
    (search_types : List String) : List OSINTResult :=
  search_types.foldl
    (fun results st =>
      match dispatch_search_type svc query st with
      | .ok rs => results ++ rs
      | .error _ => results)
    []

/-- The successful branch of a dispatch, `none` when the dispatch raised. -/
def okResults : Except String (List OSINTResult) → Option (List OSINTResult)
  | .ok rs => some rs
  | .error _ => none

/-! ### Report aggregator (`generate_comprehensive_report`, source
lines 1062-1102) -/

/-- The `search_summary` block of the report. -/
structure SearchSummary where
  total_searches : Nat
  successful_searches : Nat
  failed_searches : Nat
  total_response_time : Rat
deriving DecidableEq, Repr

/-- `search_summary` fields of the report: `len(results)`,
`sum(1 for r in results if r.success)`, `sum(1 for r in results if not
r.success)`, `sum(r.response_time for r in results)`. -/
def search_summary (results : List OSINTResult) : SearchSummary :=
  { total_searches := results.length
    successful_searches := results.foldl (fun n r => if r.success then n + 1 else n) 0
    failed_searches := results.foldl (fun n r => if !r.success then n + 1 else n) 0
    total_response_time := results.foldl (fun t r => t + r.response_time) 0 }

/-- The per-result dict appended under `results_by_service[service]`. -/
structure ServiceEntry where
  query : String
  query_type : String
  success : Bool
  data : List (String × String)
  error : Option String
  response_time : Rat
deriving DecidableEq, Repr

/-- The dict appended for one result. -/
def service_entry (r : OSINTResult) : ServiceEntry :=
  { query := r.query, query_type := r.query_type, success := r.success,
    data := r.data, error := r.error, response_time := r.response_time }

/-- Append `e` under key `name` of the insertion-ordered dict `m`, creating
the key at the end when absent (Python dict semantics). -/
def addToService (m : List (String × List ServiceEntry)) (name : String)
    (e : ServiceEntry) : List (String × List ServiceEntry) :=
  match m with
  | [] => [(name, [e])]
  | (k, v) :: rest =>
    if k == name then (k, v ++ [e]) :: rest
    else (k, v) :: addToService rest name e

/-- The `results_by_service` grouping of the report: results grouped by
`service` in first-seen order. -/
def results_by_service (results : List OSINTResult) :
    List (String × List ServiceEntry) :=
  results.foldl (fun m r => addToService m r.service (service_entry r)) []

/-! ### CSV report (`_generate_csv_report`, source lines 1136-1157)

The rows handed to the tabular-serialization capability (pandas) are modelled
as ordered key/value lists; the cell values keep their Python types. -/

inductive CsvValue where
  | str (s : String)
  | boolean (b : Bool)
  | num (q : Rat)
  | optNum (n : Option Nat)
deriving DecidableEq, Repr

/-- The fixed column set of the CSV report. -/
def csvColumns : List String :=
  ["Service", "Query", "Query_Type", "Success", "Response_Time",
   "Status_Code", "Error", "Data_Keys", "Timestamp"]

/-- The row dict built for one result: `Error` is `result.error or ''`,
`Data_Keys` is `', '.join(result.data.keys())` when `data` is non-empty. -/
def csv_row (r : OSINTResult) : List (String × CsvValue) :=
  [("Service", .str r.service),
   ("Query", .str r.query),
   ("Query_Type", .str r.query_type),
   ("Success", .boolean r.success),
   ("Response_Time", .num r.response_time),
   ("Status_Code", .optNum r.status_code),
   ("Error", .str (r.error.getD "")),
   ("Data_Keys", .str (if r.data.isEmpty then ""
                       else String.intercalate ", " (r.data.map Prod.fst))),
   ("Timestamp", .str r.timestamp)]

/-- Outcome of `_generate_csv_report`: either a table serialized from the
rows, or the literal fallback string. -/
inductive CsvReport where
  | table (rows : List (List (String × CsvValue)))
  | message (s : String)
deriving DecidableEq, Repr

/-- Is the outcome a table at all? -/
def CsvReport.isTable : CsvReport → Bool
  | .table _ => true
  | .message _ => false

/-- `_generate_csv_report`: builds one row per result and serializes them,
returning `"No results to export"` when there are no rows. -/
def generate_csv_report (results : List OSINTResult) : CsvReport :=
  let data_rows := results.map csv_row
  if data_rows.isEmpty then .message "No results to export"
  else .table data_rows

/-! ### Extractor entry points rejecting unsupported query types

Each `search` router below is translated from the source; the accepted
branches delegate to the service's network-and-extraction pipeline, which is
abstracted as a function argument (it performs the network request). -/

/-- `SocialMediaOSINT.search_gab` (lines 167-184): accepted query types build
a URL and run the pipeline (request + extraction, wrapped in the method's own
`try`); others are rejected before any request. -/
def search_gab (pipeline : String → OSINTResult) (query query_type now : String) :
    OSINTResult :=
  if query_type == "username" then
    pipeline ("https://gab.com/" ++ query)
  else if query_type == "hashtag" then
    pipeline ("https://gab.com/tags/" ++ query)
  else
    { service := "Gab", query := query, query_type := query_type,
      success := false, data := [], error := some "Unsupported query type",
      timestamp := now, response_time := 0, status_code := none }

/-- `UtilityOSINT.search` (lines 813-828): routes to `expand_url` or
`pokemon_go_search`, rejecting other query types before any request. -/
def utility_search (expand_url : String → OSINTResult)
    (pokemon_go_search : String → String → OSINTResult)
    (query query_type now : String) : OSINTResult :=
  if query_type == "url_expansion" then
    expand_url query
  else if strStarts query_type "pokemon_go" then
    pokemon_go_search query (String.replace query_type "pokemon_go_" "")
  else
    { service := "UtilityOSINT", query := query, query_type := query_type,
      success := false, data := [], error := some "Unsupported query type",
      timestamp := now, response_time := 0, status_code := none }

/-- `SULTANFramework.search` (lines 952-964): routes to
`bulk_username_check`, rejecting other query types before any request; note
the error string carries a `" for SULTAN"` suffix. -/
def sultan_search (bulk_username_check : String → OSINTResult)
    (query query_type now : String) : OSINTResult :=
  if query_type == "bulk_username_check" then
    bulk_username_check query
  else
    { service := "SULTAN", query := query, query_type := query_type,
      success := false, data := [],
      error := some "Unsupported query type for SULTAN",
      timestamp := now, response_time := 0, status_code := none }

/-! ### Helper lemmas about the string primitives and the classifier -/

theorem listStarts_all_false {pred : Char → Bool} {p : Char} (ps : List Char)
    (hp : pred p = false) :
    ∀ l : List Char, l.all pred = true → listStarts (p :: ps) l = false := by
  intro l hl
  match l with
  | [] => rfl
  | c :: cs =>
    simp only [List.all_cons, Bool.and_eq_true] at hl
    have hpc : (p == c) = false := by
      cases hb : (p == c)
      · rfl
      · rw [← eq_of_beq hb, hp] at hl
        exact absurd hl.1 (by simp)
    simp [listStarts, hpc]

theorem listHasSegment_all_false {pred : Char → Bool} {p : Char} (ps : List Char)
    (hp : pred p = false) :
    ∀ l : List Char, l.all pred = true → listHasSegment (p :: ps) l = false
  | [], _ => rfl
  | c :: cs, h => by
    have h' := h
    simp only [List.all_cons, Bool.and_eq_true] at h'
    simp [listHasSegment, listStarts_all_false ps hp (c :: cs) h,
      listHasSegment_all_false ps hp cs h'.2]

/-- A string of ASCII digits contains no scheme and no top-level-domain
substring, hence `_is_url` rejects it. -/
theorem is_url_false_of_digits (q : String)
    (h : q.data.all Char.isDigit = true) : is_url q = false := by
  have e1 : is_url q =
      (listStarts ('h' :: "ttp://".data) q.data ||
        listStarts ('h' :: "ttps://".data) q.data ||
        listHasSegment ('.' :: "com".data) q.data ||
        listHasSegment ('.' :: "org".data) q.data ||
        listHasSegment ('.' :: "net".data) q.data) := rfl
  rw [e1, listStarts_all_false _ (by decide) q.data h,
    listStarts_all_false _ (by decide) q.data h,
    listHasSegment_all_false _ (by decide) q.data h,
    listHasSegment_all_false _ (by decide) q.data h,
    listHasSegment_all_false _ (by decide) q.data h]
  rfl

theorem usernameChar_of_digit {c : Char} (h : c.isDigit = true) :
    usernameChar c = true := by
  simp [usernameChar, Char.isAlphanum, h]

theorem looks_like_username_intro (q : String)
    (h2 : 2 ≤ q.data.length) (h30 : q.data.length ≤ 30)
    (hchars : q.data.all usernameChar = true) (hurl : is_url q = false) :
    looks_like_username q = true := by
  have hne : q.data.isEmpty = false := by
    cases hq : q.data with
    | nil => rw [hq] at h2; simp at h2
    | cons c cs => rfl
  simp [looks_like_username, pyAnchoredMatch, usernameCore, hne, hchars, hurl]
  exact ⟨h2, h30⟩

theorem determine_username_branch (q : String) (hurl : is_url q = false)
    (hlu : looks_like_username q = true) :
    determine_search_types q = ["social_username", "bulk_username"] := by
  simp [determine_search_types, determine_core, hurl, hlu]

/-! ### Claims about the classifier -/

/-- C2 counterexample: on the 12-ASCII-digit input `"123456789012"` the
classifier returns the social-username and bulk-username tags, not the
numeric-code (Pokemon Go trainer-code) tag: the username-shape branch is
tested before the trainer-code branch and fires first. -/
theorem twelve_digit_trainer_code_counterexample :
    determine_search_types "123456789012" = ["social_username", "bulk_username"] ∧
    determine_search_types "123456789012" ≠ ["utility_pokemon_go_trainer_code"] := by
  decide

/-- C2 amended: for every input string of exactly 12 ASCII digits, `classify`
returns exactly the social-username and bulk-username tags (the username-shape
rule precedes the numeric-code rule, so the numeric-code tag is never produced
for such inputs). -/
theorem twelve_digits_routed_to_username (q : String)
    (hlen : q.data.length = 12) (hdig : q.data.all Char.isDigit = true) :
    determine_search_types q = ["social_username", "bulk_username"] := by
  have hurl := is_url_false_of_digits q hdig
  have hchars : q.data.all usernameChar = true := by
    rw [List.all_eq_true] at hdig ⊢
    exact fun c hc => usernameChar_of_digit (hdig c hc)
  exact determine_username_branch q hurl
    (looks_like_username_intro q (by omega) (by omega) hchars hurl)

/-- C2 amended witness at the concrete 12-digit input `"210987654321"`. -/
theorem twelve_digits_routed_to_username_witness :
    determine_search_types "210987654321" = ["social_username", "bulk_username"] :=
  twelve_digits_routed_to_username "210987654321" (by decide) (by decide)

/-- C3 counterexample: the shortened URL `"https://bit.ly/a.jpg"` ends in an
image extension, and the classifier returns the URL-expansion tag *and* the
image-analysis tag — the two checks are independent `if`s, not an
`if`/`else`. -/
theorem shortened_image_url_counterexample :
    determine_search_types "https://bit.ly/a.jpg" =
      ["utility_url_expansion", "image_analysis"] ∧
    "image_analysis" ∈ determine_search_types "https://bit.ly/a.jpg" := by
  decide

/-- C3 amended: for every input that is a URL, matches the shortened-URL
domain allow-list, and ends in a recognized image extension, `classify`
returns both the URL-expansion tag and the image-analysis tag, in that
order. -/
theorem shortened_image_url_gets_both_tags (q : String)
    (hu : is_url q = true) (hs : is_shortened_url q = true)
    (hi : is_image_url q = true) :
    determine_search_types q = ["utility_url_expansion", "image_analysis"] := by
  simp [determine_search_types, determine_core, hu, hs, hi]

/-- C3 amended witness at the concrete input `"https://bit.ly/a.jpg"`. -/
theorem shortened_image_url_gets_both_tags_witness :
    determine_search_types "https://bit.ly/a.jpg" =
      ["utility_url_expansion", "image_analysis"] :=
  shortened_image_url_gets_both_tags "https://bit.ly/a.jpg"
    (by decide) (by decide) (by decide)

/-- C4: for every input of 2 to 30 characters drawn from `[A-Za-z0-9_.-]`
that is not a URL, `classify` returns exactly the social-username and
bulk-username tags. -/
theorem username_shape_classification (q : String)
    (h2 : 2 ≤ q.data.length) (h30 : q.data.length ≤ 30)
    (hchars : q.data.all usernameChar = true) (hurl : is_url q = false) :
    determine_search_types q = ["social_username", "bulk_username"] :=
  determine_username_branch q hurl
    (looks_like_username_intro q h2 h30 hchars hurl)

/-- C4 witness at the concrete input `"testuser"`. -/
theorem username_shape_classification_witness :
    determine_search_types "testuser" = ["social_username", "bulk_username"] :=
  username_shape_classification "testuser"
    (by decide) (by decide) (by decide) (by decide)

/-- C10: the classifier never returns an empty tag list, and whenever no
classification rule produces a tag it falls back to the social-username and
bulk-username tags.  The two fallback conjuncts together cover every no-rule
input: a URL matching neither the shortened-URL allow-list nor an image
extension, and a non-URL failing the username shape, the email test and the
trainer-code regex alike. -/
theorem classifier_nonempty_fallback (q : String) :
    determine_search_types q ≠ [] ∧
    (is_url q = true → is_shortened_url q = false → is_image_url q = false →
      determine_search_types q = ["social_username", "bulk_username"]) ∧
    (is_url q = false → looks_like_username q = false →
      (strHasSegment q "@" && strHasSegment q ".") = false →
      pyAnchoredMatch trainerCodeCore q = false →
      determine_search_types q = ["social_username", "bulk_username"]) := by
  refine ⟨?_, fun hu hs hi => ?_, fun hu hl he ht => ?_⟩
  · unfold determine_search_types
    cases h : determine_core q with
    | nil => simp
    | cons a as => simp
  · simp [determine_search_types, determine_core, hu, hs, hi]
  · simp [determine_search_types, determine_core, hu, hl, he, ht]

/-- C10 witness at the concrete inputs `"example.org"` (a URL that is neither
shortened nor an image) and `"!!!"` (a non-URL matched by no rule at all):
both are classified by the fallback. -/
theorem classifier_nonempty_fallback_witness :
    determine_search_types "example.org" = ["social_username", "bulk_username"] ∧
    determine_search_types "!!!" = ["social_username", "bulk_username"] :=
  ⟨(classifier_nonempty_fallback "example.org").2.1
      (by decide) (by decide) (by decide),
   (classifier_nonempty_fallback "!!!").2.2
      (by decide) (by decide) (by decide) (by decide)⟩

/-! ### Claims about the fetcher -/

/-- C7: `make_request` performs at most 3 attempts; if every attempt raises,
the exception of the last attempt is the one surfaced; if an attempt returns a
response, it is returned at once and no further attempt is made. -/
theorem make_request_retry_bound (att : Nat → Except String α) :
    attemptsMade att ≤ 3 ∧
    (∀ e0 e1 e2, att 0 = .error e0 → att 1 = .error e1 → att 2 = .error e2 →
      make_request att = .error e2 ∧ attemptsMade att = 3) ∧
    (∀ r, att 0 = .ok r → make_request att = .ok r ∧ attemptsMade att = 1) ∧
    (∀ e0 r, att 0 = .error e0 → att 1 = .ok r →
      make_request att = .ok r ∧ attemptsMade att = 2) ∧
    (∀ e0 e1 r, att 0 = .error e0 → att 1 = .error e1 → att 2 = .ok r →
      make_request att = .ok r ∧ attemptsMade att = 3) := by
  have hr : List.range 3 = [0, 1, 2] := by decide
  unfold make_request attemptsMade
  rw [hr]
  refine ⟨?_, fun e0 e1 e2 h0 h1 h2 => ?_, fun r h0 => ?_,
    fun e0 r h0 h1 => ?_, fun e0 e1 r h0 h1 h2 => ?_⟩
  · cases h0 : att 0 with
    | ok r => simp [attemptsMadeLoop, h0]
    | error e =>
      cases h1 : att 1 with
      | ok r => simp [attemptsMadeLoop, h0, h1]
      | error e1 => simp [attemptsMadeLoop, h0, h1]
  · simp [make_requestLoop, attemptsMadeLoop, h0, h1, h2]
  · simp [make_requestLoop, attemptsMadeLoop, h0]
  · simp [make_requestLoop, attemptsMadeLoop, h0, h1]
  · simp [make_requestLoop, attemptsMadeLoop, h0, h1, h2]

/-- C7 witness: a behaviour raising on the first attempt and answering on the
second is returned after exactly two attempts. -/
theorem make_request_retry_bound_witness :
    make_request (fun i => if i == 0 then (Except.error "timeout" : Except String Nat)
        else Except.ok 200) = Except.ok 200 ∧
    attemptsMade (fun i => if i == 0 then (Except.error "timeout" : Except String Nat)
        else Except.ok 200) = 2 :=
  (make_request_retry_bound
    (fun i => if i == 0 then (Except.error "timeout" : Except String Nat)
      else Except.ok 200)).2.2.2.1 "timeout" 200 rfl rfl

/-! ### Claims about the dispatch orchestrator -/

/-- C5: `run` with an empty tag list returns the empty batch; the embedding
is a total function, so no exception is possible. -/
theorem run_empty_tags (svc : ServiceSuite) (query : String) :
    search_comprehensive svc query [] = [] := rfl

/-- Concrete SULTAN result used in the dispatch counterexample. -/
def sultanSample : OSINTResult :=
  { service := "SULTAN", query := "testuser", query_type := "bulk_username_check",
    success := true, data := [("platforms_checked", "21")], error := none,
    timestamp := "2024-01-01T00:00:00", response_time := 2, status_code := none }

/-- Behaviour where the social-media service raises and SULTAN succeeds. -/
def raisingSuite : ServiceSuite :=
  { social_media := fun _ _ => .error "social media extractor raised",
    image_analysis := fun _ => .error "unused",
    utilities := fun _ _ => .error "unused",
    sultan := fun _ => .ok sultanSample }

/-- C1 counterexample: when the social-media extractor raises during
`run "testuser" ["social_username", "bulk_username"]`, the batch holds only
the SULTAN result, and every entry of the batch has `success = true` — so no
`success = false` record with an error message is produced for the failing
extractor (the exception is logged and the iteration simply continues). -/
theorem run_raising_extractor_counterexample :
    search_comprehensive raisingSuite "testuser"
        ["social_username", "bulk_username"] = [sultanSample] ∧
    (search_comprehensive raisingSuite "testuser"
        ["social_username", "bulk_username"]).all (fun r => r.success) = true := by
  decide

theorem run_failure_isolation_aux (svc : ServiceSuite) (query : String) :
    ∀ (sts : List String) (acc : List OSINTResult),
      sts.foldl
        (fun results st =>
          match dispatch_search_type svc query st with
          | .ok rs => results ++ rs
          | .error _ => results)
        acc
      = acc ++ (sts.filterMap fun st =>
          okResults (dispatch_search_type svc query st)).flatten
  | [], acc => by simp
  | st :: sts, acc => by
    cases hd : dispatch_search_type svc query st with
    | ok rs =>
      simp [List.foldl_cons, List.filterMap_cons, hd, okResults,
        run_failure_isolation_aux svc query sts]
    | error e =>
      simp [List.foldl_cons, List.filterMap_cons, hd, okResults,
        run_failure_isolation_aux svc query sts]

/-- C1 amended: `run` returns, in tag order, exactly the concatenation of the
results of the non-raising service invocations; an invocation that raises is
caught (no exception leaves `run`, which is a total function) but contributes
*no* `SearchResult` at all — the batch contains no `success = false` entry for
it. -/
theorem run_failure_isolation (svc : ServiceSuite) (query : String)
    (search_types : List String) :
    search_comprehensive svc query search_types =
      (search_types.filterMap fun st =>
        okResults (dispatch_search_type svc query st)).flatten := by
  simpa using run_failure_isolation_aux svc query search_types []

/-! ### Claims about the report aggregator -/

theorem foldl_count (p : OSINTResult → Bool) :
    ∀ (l : List OSINTResult) (n : Nat),
      l.foldl (fun m r => if p r then m + 1 else m) n = n + (l.filter p).length
  | [], n => by simp
  | r :: rs, n => by
    rw [List.foldl_cons, List.filter_cons]
    cases hp : p r
    · simp only [hp, Bool.false_eq_true, if_false]
      exact foldl_count p rs n
    · simp only [hp, if_true, List.length_cons]
      rw [foldl_count p rs (n + 1)]
      omega

theorem foldl_time :
    ∀ (l : List OSINTResult) (t : Rat),
      l.foldl (fun s r => s + r.response_time) t
        = t + (l.map (fun r => r.response_time)).sum
  | [], t => by simp
  | r :: rs, t => by
    rw [List.foldl_cons, List.map_cons, List.sum_cons,
      foldl_time rs (t + r.response_time)]
    ring

theorem filter_length_split (p : OSINTResult → Bool) :
    ∀ l : List OSINTResult,
      (l.filter p).length + (l.filter (fun r => !p r)).length = l.length
  | [] => rfl
  | r :: rs => by
    rw [List.filter_cons, List.filter_cons]
    cases hp : p r
    · simp only [hp, Bool.false_eq_true, if_false, Bool.not_false, if_true,
        List.length_cons]
      rw [← filter_length_split p rs]
      omega
    · simp only [hp, if_true, Bool.not_true, Bool.false_eq_true, if_false,
        List.length_cons]
      rw [← filter_length_split p rs]
      omega

/-- C6: the report's summary block has total count the length of the input
list, success count the number of `success = true` results, failure count the
number of `success = false` results (so success + failure = total), and total
elapsed time the sum of the `response_time` fields; on the empty list all
three counts are 0, the elapsed time is 0, and the per-service grouping is
empty. -/
theorem report_summary_counts (results : List OSINTResult) :
    (search_summary results).total_searches = results.length ∧
    (search_summary results).successful_searches =
      (results.filter (fun r => r.success)).length ∧
    (search_summary results).failed_searches =
      (results.filter (fun r => !r.success)).length ∧
    (search_summary results).successful_searches +
        (search_summary results).failed_searches =
      (search_summary results).total_searches ∧
    (search_summary results).total_response_time =
      (results.map (fun r => r.response_time)).sum ∧
    search_summary [] = ⟨0, 0, 0, 0⟩ ∧
    results_by_service [] = [] := by
  have hs : (search_summary results).successful_searches =
      (results.filter (fun r => r.success)).length := by
    show results.foldl _ 0 = _
    rw [foldl_count (fun r => r.success) results 0]
    omega
  have hf : (search_summary results).failed_searches =
      (results.filter (fun r => !r.success)).length := by
    show results.foldl _ 0 = _
    rw [foldl_count (fun r => !r.success) results 0]
    omega
  refine ⟨rfl, hs, hf, ?_, ?_, rfl, rfl⟩
  · rw [hs, hf]
    exact filter_length_split (fun r => r.success) results
  · show results.foldl _ 0 = _
    rw [foldl_time results 0]
    ring

/-! ### Claims about the CSV report -/

/-- C9 counterexample: on the empty result list the CSV path returns the
fallback string `"No results to export"` rather than a (zero-row) table. -/
theorem csv_report_empty_counterexample :
    (generate_csv_report []).isTable = false ∧
    generate_csv_report [] = .message "No results to export" := by
  decide

/-- Concrete result used to instantiate the CSV claims. -/
def csvSample : OSINTResult :=
  { service := "Gab", query := "alice", query_type := "username",
    success := true, data := [("profile_url", "https://gab.com/alice")],
    error := none, timestamp := "2024-01-01T00:00:00",
    response_time := 1/2, status_code := some 200 }

/-- C9 amended: for every *non-empty* list of results the CSV serialization is
the row-per-result table whose every row carries exactly the fixed column set
Service, Query, Query_Type, Success, Response_Time, Status_Code, Error,
Data_Keys (the joined data-field names), Timestamp, with one row per input
result; the empty list instead yields the fallback message. -/
theorem csv_report_rows (results : List OSINTResult) (h : results ≠ []) :
    generate_csv_report results = .table (results.map csv_row) ∧
    (results.map csv_row).length = results.length ∧
    ∀ r ∈ results, (csv_row r).map Prod.fst = csvColumns := by
  refine ⟨?_, by simp, fun r _ => rfl⟩
  have he : (results.map csv_row).isEmpty = false := by
    cases results with
    | nil => exact absurd rfl h
    | cons a as => rfl
  simp [generate_csv_report, he]

/-- C9 amended witness at a one-result list. -/
theorem csv_report_rows_witness :
    generate_csv_report [csvSample] = CsvReport.table [csv_row csvSample] :=
  (csv_report_rows [csvSample] (List.cons_ne_nil _ _)).1

/-! ### Claims about the extractor entry points -/

/-- Concrete result standing in for the accepted-branch pipelines of the
three routers. -/
def bulkSample : OSINTResult :=
  { service := "SULTAN", query := "alice", query_type := "bulk_username_check",
    success := true, data := [("platforms_found", "3")], error := none,
    timestamp := "2024-01-01T00:00:00", response_time := 1, status_code := none }

/-- C8 counterexample: `SULTANFramework.search` rejects an unsupported query
type with the error string `"Unsupported query type for SULTAN"`, which is not
the exact string `"Unsupported query type"` the claim requires. -/
theorem sultan_unsupported_message_counterexample :
    (sultan_search (fun _ => bulkSample) "alice" "reverse_image" "t0").error =
        some "Unsupported query type for SULTAN" ∧
    (sultan_search (fun _ => bulkSample) "alice" "reverse_image" "t0").error ≠
        some "Unsupported query type" := by
  decide

/-- C8 amended: each extractor entry point, given a query type it does not
accept, returns a `success = false` result whose outcome is independent of the
network/extraction pipeline (no request is made); the error string is exactly
`"Unsupported query type"` for the Gab and Utility routers and
`"Unsupported query type for SULTAN"` for the SULTAN router. -/
theorem unsupported_query_type_rejected
    (p₁ p₂ : String → OSINTResult)
    (u₁ u₂ : String → OSINTResult) (g₁ g₂ : String → String → OSINTResult)
    (b₁ b₂ : String → OSINTResult) (query query_type now : String) :
    (query_type ≠ "username" → query_type ≠ "hashtag" →
      search_gab p₁ query query_type now = search_gab p₂ query query_type now ∧
      (search_gab p₁ query query_type now).success = false ∧
      (search_gab p₁ query query_type now).error =
        some "Unsupported query type") ∧
    (query_type ≠ "url_expansion" → strStarts query_type "pokemon_go" = false →
      utility_search u₁ g₁ query query_type now =
        utility_search u₂ g₂ query query_type now ∧
      (utility_search u₁ g₁ query query_type now).success = false ∧
      (utility_search u₁ g₁ query query_type now).error =
        some "Unsupported query type") ∧
    (query_type ≠ "bulk_username_check" →
      sultan_search b₁ query query_type now =
        sultan_search b₂ query query_type now ∧
      (sultan_search b₁ query query_type now).success = false ∧
      (sultan_search b₁ query query_type now).error =
        some "Unsupported query type for SULTAN") := by
  refine ⟨fun h1 h2 => ?_, fun h1 h2 => ?_, fun h1 => ?_⟩
  · simp [search_gab, h1, h2]
  · simp [utility_search, h1, h2]
  · simp [sultan_search, h1]

/-- C8 amended witness at the unsupported query type `"reverse_image"`. -/
theorem unsupported_query_type_rejected_witness :
    (search_gab (fun _ => bulkSample) "alice" "reverse_image" "t0").error =
        some "Unsupported query type" ∧
    (utility_search (fun _ => bulkSample) (fun _ _ => bulkSample)
        "alice" "reverse_image" "t0").error = some "Unsupported query type" := by
  obtain ⟨hg, hu, -⟩ := unsupported_query_type_rejected
    (fun _ => bulkSample) (fun _ => bulkSample) (fun _ => bulkSample)
    (fun _ => bulkSample) (fun _ _ => bulkSample) (fun _ _ => bulkSample)
    (fun _ => bulkSample) (fun _ => bulkSample) "alice" "reverse_image" "t0"
  exact ⟨(hg (by decide) (by decide)).2.2, (hu (by decide) (by decide)).2.2⟩
